import Mathlib

/-!
Verification of `mcp_atlassian.preprocessing.confluence` against its
specification.

The module under study converts Markdown to Confluence storage format.
It has a primary pipeline (markdown_to_html, elements_from_string,
ConfluenceStorageFormatConverter.visit, elements_to_string) guarded by a
try/except, and a BeautifulSoup-based fallback that rewrites
`<pre><code>` blocks into Confluence code structured fragments, with a
last-resort return of the raw rendered HTML.

The embedding has two levels:
1. a concrete DOM model of the fallback transformation (the code of
   lines 101-144 of `confluence.py`), and
2. an abstract control-flow model of `markdown_to_confluence_storage`
   in which the md2conf collaborators are fallible black boxes
   (`Except`-returning functions) and the filesystem is explicit state.
-/

namespace ConfluencePreprocessing

/-- A DOM node as seen through BeautifulSoup: an element with a tag,
attributes (bs4 reports multi-valued attributes such as `class` as lists
of strings; a single-valued attribute is a singleton list) and children;
a text (NavigableString) node; or a raw fragment node representing
markup spliced in by `replace_with(BeautifulSoup(fragment, "html.parser"))`,
which `str(soup)` reproduces verbatim. -/
inductive Node where
  | elem : String → List (String × List String) → List Node → Node
  | txt : String → Node
  | raw : String → Node

/-- Python `s.startswith(p)` : prefix test on the character sequence. -/
def startsWithStr (p s : String) : Bool :=
  p.toList.isPrefixOf s.toList

/-- Python `s.split("-", 1)[1]`, defined when `s` contains a dash: the
part of `s` after the first dash.  In `confluence.py` it is only applied
under a `startswith("language-")` guard, so a dash is always present. -/
def afterFirstDash (s : String) : String :=
  String.mk ((s.toList.dropWhile (fun c => c != '-')).tail)

/-- The attribute lookup `code.get("class", [])` guarded by
`code.has_attr("class")` (lines 115-116): the class list of an element,
`[]` when absent or when the node is not an element. -/
def getClasses : Node → List String
  | Node.elem _ attrs _ => (attrs.lookup "class").getD []
  | _ => []

/-- The language-detection loop of lines 114-119: the first class that
starts with `language-` determines the language, via `split("-", 1)[1]`;
`none` when no class matches. -/
def detectLanguage : List String → Option String
  | [] => none
  | cls :: rest =>
    if startsWithStr "language-" cls then some (afterFirstDash cls)
    else detectLanguage rest

mutual
/-- Python `node.get_text()` : concatenation of all descendant text. -/
def get_text : Node → String
  | Node.elem _ _ cs => get_textL cs
  | Node.txt s => s
  | Node.raw _ => ""

/-- Extension of `get_text` over a list of siblings, in document order. -/
def get_textL : List Node → String
  | [] => ""
  | n :: ns => get_text n ++ get_textL ns
end

mutual
/-- Python `node.find(tag)` restricted to a forest: first element with
the given tag in document (pre-order) order, searching recursively. -/
def findTag (tag : String) : Node → Option Node
  | Node.elem t a cs =>
    if t = tag then some (Node.elem t a cs) else findTagL tag cs
  | _ => none

/-- Extension of `findTag` over a list of siblings; `pre.find("code")` is
`findTagL "code"` on the children of the `pre` element. -/
def findTagL (tag : String) : List Node → Option Node
  | [] => none
  | n :: ns =>
    match findTag tag n with
    | some r => some r
    | none => findTagL tag ns
end

/-- The opening tag of the code structured fragment (line 126). -/
def fragmentHead : String :=
  "<ac:structured-macro ac:name=\"code\" ac:schema-version=\"1\">"

/-- The language parameter element of lines 129-133. -/
def languageParameter (l : String) : String :=
  "<ac:parameter ac:name=\"language\">" ++ l ++ "</ac:parameter>"

/-- The parameter part of the fragment: Python's `if language:` emits
the parameter only when the detected language is truthy, that is,
present and non-empty. -/
def optionalLanguageParameter : Option String → String
  | some l => if l ≠ "" then languageParameter l else ""
  | none => ""

/-- The plain-text body and closing tag of lines 134-137: the code text
is spliced in verbatim between `<![CDATA[` and `]]>`. -/
def fragmentTail (code_text : String) : String :=
  "<ac:plain-text-body><![CDATA[" ++ code_text ++ "]]></ac:plain-text-body>"
  ++ "</ac:structured-macro>"

/-- The fragment-assembly of lines 125-139 (`"".join(macro_parts)`):
the Confluence code structured fragment built from the detected
language and the extracted code text. -/
def buildCodeFragment (language : Option String) (code_text : String) : String :=
  fragmentHead ++ optionalLanguageParameter language ++ fragmentTail code_text

mutual
/-- The rewrite loop of lines 108-142 as a tree transformation: every
`pre` element that has a `code` descendant is replaced in place by the
raw code fragment built from that `code` element; a `pre` without a
`code` descendant is skipped (`continue`, line 111); everything else is
kept, its children rewritten.  This models the Python
`for pre in soup.find_all("pre")` loop on trees in which `pre` elements
are not nested, which is what the HTML renderer produces. -/
def convertNode : Node → Node
  | Node.elem tag attrs cs =>
    if tag = "pre" then
      match findTagL "code" cs with
      | some code =>
        Node.raw
          (buildCodeFragment (detectLanguage (getClasses code)) (get_text code))
      | none => Node.elem tag attrs (convertNodes cs)
    else Node.elem tag attrs (convertNodes cs)
  | Node.txt s => Node.txt s
  | Node.raw s => Node.raw s

/-- Application of `convertNode` to every tree of a forest. -/
def convertNodes : List Node → List Node
  | [] => []
  | n :: ns => convertNode n :: convertNodes ns
end

/-- Text escaping performed by `str(soup)` (BeautifulSoup's minimal
formatter): `&`, `<` and `>` in text nodes become entities. -/
def escText (s : String) : String :=
  ((s.replace "&" "&amp;").replace "<" "&lt;").replace ">" "&gt;"

/-- Attribute-value escaping performed by `str(soup)`: `&` and `"`
become entities; a multi-valued attribute is joined with spaces. -/
def escAttrVal (vs : List String) : String :=
  ((String.intercalate " " vs).replace "&" "&amp;").replace "\"" "&quot;"

/-- Serialization of one attribute as `str(soup)` prints it. -/
def renderAttr (a : String × List String) : String :=
  " " ++ a.1 ++ "=\"" ++ escAttrVal a.2 ++ "\""

/-- Serialization of an attribute list in original order. -/
def renderAttrs : List (String × List String) → String
  | [] => ""
  | a :: as_ => renderAttr a ++ renderAttrs as_

mutual
/-- Python `str(node)` : serialization of a node.  A raw fragment is emitted
verbatim (its markup was parsed from exactly this text); text is
entity-escaped; an element prints its tag, attributes and children. -/
def render : Node → String
  | Node.elem tag attrs cs =>
    "<" ++ tag ++ renderAttrs attrs ++ ">" ++ renderL cs ++ "</" ++ tag ++ ">"
  | Node.txt s => escText s
  | Node.raw s => s

/-- Python `str(soup)` : serialization of the document forest. -/
def renderL : List Node → String
  | [] => ""
  | n :: ns => render n ++ renderL ns
end

/-- Substring test on character lists: `t` occurs somewhere in `l`. -/
def subSeqAt (t : List Char) : List Char → Bool
  | [] => t.isEmpty
  | c :: rest => t.isPrefixOf (c :: rest) || subSeqAt t rest

/-- Python `t in s` : `t` occurs as a contiguous substring of `s`. -/
def containsSub (t s : String) : Bool :=
  subSeqAt t.toList s.toList

/-! ## Control-flow model of `markdown_to_confluence_storage`

The md2conf collaborators are black boxes that may raise (modelled with
`Except String`); per the spec's interface section the Markdown renderer
is `render(markdown: string) -> html: string`, a total function.  The
filesystem is explicit state: directories are identified by the numbers
a counter hands out, so `mkdtemp` always returns a fresh name. -/

/-- The filesystem state visible to the function: the set of existing
temporary directories and the next fresh name. -/
structure FS where
  dirs : List Nat
  next : Nat

/-- Python `tempfile.mkdtemp()` : create and return a fresh directory. -/
def mkdtemp (fs : FS) : Nat × FS :=
  (fs.next, ⟨fs.next :: fs.dirs, fs.next + 1⟩)

/-- Python `shutil.rmtree(d, ignore_errors=True)` : remove the directory,
silently succeeding when it does not exist. -/
def rmtree (d : Nat) (fs : FS) : FS :=
  ⟨fs.dirs.filter (fun x => x ≠ d), fs.next⟩

/-- The options record built at lines 65-69. -/
structure ConfluenceConverterOptions where
  ignore_invalid_url : Bool
  heading_anchors : Bool
  render_mermaid : Bool

/-- The external collaborators of `confluence.py`, abstracted over the
md2conf element-tree type `T`.  `visit_serialize` is the composition of
`ConfluenceStorageFormatConverter(...).visit(root)` followed by
`elements_to_string(root)`; it receives the options and the temporary
directory the converter was constructed with (lines 72-84).
`bs4_available` is whether `from bs4 import BeautifulSoup` succeeds, and
`parse_lenient` is `BeautifulSoup(html, "html.parser")`. -/
structure Collab (T : Type) where
  markdown_to_html : String → String
  elements_from_string : String → Except String T
  visit_serialize : ConfluenceConverterOptions → Nat → T → Except String String
  bs4_available : Bool
  parse_lenient : String → Except String (List Node)

/-- The primary attempt, lines 58-89: make the temporary directory,
parse, convert, serialize, and — in a `finally` — remove the directory
on every exit path, successful or not, before the caller sees the
result. -/
def primaryAttempt {T : Type} (c : Collab T) (enable_heading_anchors : Bool)
    (html_content : String) (fs : FS) : Except String String × FS :=
  let md := mkdtemp fs
  let temp_dir := md.1
  let result : Except String String :=
    match c.elements_from_string html_content with
    | Except.error e => Except.error e
    | Except.ok root =>
      let options : ConfluenceConverterOptions :=
        { ignore_invalid_url := true
          heading_anchors := enable_heading_anchors
          render_mermaid := false }
      c.visit_serialize options temp_dir root
  (result, rmtree temp_dir md.2)

/-- The fallback substitution, lines 101-144: import BeautifulSoup,
parse the HTML leniently, rewrite `pre`/`code` blocks into code
fragments, and serialize.  An import or parse failure raises out of this
step (to be caught at line 145). -/
def fallbackStep {T : Type} (c : Collab T) (html_content : String) :
    Except String String :=
  if c.bs4_available then
    match c.parse_lenient html_content with
    | Except.error e => Except.error e
    | Except.ok soup => Except.ok (renderL (convertNodes soup))
  else Except.error "ImportError: bs4"

/-- The method `markdown_to_confluence_storage` (lines 39-155): primary attempt,
then on any primary exception a fresh render and the fallback
substitution, and on a fallback exception the re-rendered HTML itself.
The returned `Except` is the caller's view: `Except.error` would mean an
exception propagated out of the method. -/
def markdown_to_confluence_storage {T : Type} (c : Collab T)
    (markdown_content : String) (enable_heading_anchors : Bool) (fs : FS) :
    Except String String × FS :=
  let html_content := c.markdown_to_html markdown_content
  let pr := primaryAttempt c enable_heading_anchors html_content fs
  match pr.1 with
  | Except.ok storage_format => (Except.ok storage_format, pr.2)
  | Except.error _ =>
    let html2 := c.markdown_to_html markdown_content
    match fallbackStep c html2 with
    | Except.ok s => (Except.ok s, pr.2)
    | Except.error _ => (Except.ok html2, pr.2)

/-! ## Module initialization: the `elements_from_string` probe -/

/-- The md2conf library surface relevant to the import probe of lines
15-20: whether the name `elements_from_string` exists, what it denotes
when it does, and the function `elements_from_strings`. -/
structure Md2confLib (T : Type) where
  elements_from_string_available : Bool
  elements_from_string_impl : String → Except String T
  elements_from_strings : String → Except String T

/-- The try/except import of lines 17-20, performed once when the
module is loaded: bind `elements_from_string` to the library's function
of that name, or on `ImportError` to `elements_from_strings`. -/
def selectElementsFromString {T : Type} (lib : Md2confLib T) :
    String → Except String T :=
  if lib.elements_from_string_available then lib.elements_from_string_impl
  else lib.elements_from_strings

/-! ## Concrete instances used to exercise the theorems -/

/-- The `code` element the test's fenced `python` block renders to. -/
def codePy : Node :=
  Node.elem "code" [("class", ["language-python"])]
    [Node.txt "def hello():\n    return \"world\"\n"]

/-- The `pre` element wrapping `codePy`. -/
def prePy : Node := Node.elem "pre" [] [codePy]

/-- A `code` element carrying two classes that both start with
`language-`: the bare `language-` first, then `language-python`. -/
def codeTwoClasses : Node :=
  Node.elem "code" [("class", ["language-", "language-python"])] [Node.txt "x"]

/-- The `pre` element wrapping `codeTwoClasses`. -/
def preTwoClasses : Node := Node.elem "pre" [] [codeTwoClasses]

/-- A `pre` element with no `code` descendant. -/
def prePlain : Node := Node.elem "pre" [] [Node.txt "plain text"]

/-- An anchor element as the renderer produces it for `[Link text](url)`. -/
def anchorNode : Node :=
  Node.elem "a" [("href", ["https://example.com"])] [Node.txt "Link text"]

/-- A collaborator set whose primary parse and fallback import both
fail: `elements_from_string` raises and bs4 is unavailable. -/
def failingCollab : Collab Unit :=
  { markdown_to_html := fun s => "<p>" ++ s ++ "</p>"
    elements_from_string := fun _ => Except.error "forced parse error"
    visit_serialize := fun _ _ _ => Except.ok ""
    bs4_available := false
    parse_lenient := fun _ => Except.error "unused" }

/-- A collaborator set whose converter ignores the scratch path. -/
def pathBlindCollab : Collab Unit :=
  { markdown_to_html := fun s => "<p>" ++ s ++ "</p>"
    elements_from_string := fun _ => Except.ok ()
    visit_serialize := fun o _ _ =>
      Except.ok (if o.heading_anchors then "anchors" else "storage")
    bs4_available := true
    parse_lenient := fun _ => Except.ok [] }

/-- An empty filesystem state. -/
def fs0 : FS := ⟨[], 0⟩

/-- A library surface on which the probe for `elements_from_string`
succeeds and both names denote the same parser. -/
def probeLib : Md2confLib Unit :=
  { elements_from_string_available := true
    elements_from_string_impl := fun _ => Except.ok ()
    elements_from_strings := fun _ => Except.ok () }

/-! ## Helper lemmas -/

theorem isPrefixOf_self_append : ∀ (l r : List Char), l.isPrefixOf (l ++ r) = true
  | [], [] => rfl
  | [], _ :: _ => rfl
  | c :: l, r => by
    show (c == c && l.isPrefixOf (l ++ r)) = true
    simp [isPrefixOf_self_append l r]

theorem startsWithStr_append (p r : String) : startsWithStr p (p ++ r) = true := by
  unfold startsWithStr
  have h : (p ++ r).toList = p.toList ++ r.toList := String.data_append p r
  rw [h]
  exact isPrefixOf_self_append _ _

theorem afterFirstDash_language (name : String) :
    afterFirstDash ("language-" ++ name) = name := rfl

theorem subSeqAt_append (t l r : List Char) : subSeqAt t (l ++ t ++ r) = true := by
  induction l with
  | nil =>
    cases t with
    | nil => cases r <;> simp [subSeqAt]
    | cons c cs =>
      simp only [List.nil_append, List.cons_append, subSeqAt]
      have hp : (c :: cs).isPrefixOf (c :: (cs ++ r)) = true :=
        isPrefixOf_self_append (c :: cs) r
      simp [hp]
  | cons c ls ih =>
    rw [List.append_assoc] at ih
    simp only [List.cons_append, subSeqAt]
    simp [ih]

theorem containsSub_append (t a b : String) :
    containsSub t (a ++ t ++ b) = true := by
  unfold containsSub
  have h : (a ++ t ++ b).toList = a.toList ++ t.toList ++ b.toList := by
    show (a ++ t ++ b).data = a.data ++ t.data ++ b.data
    rw [String.data_append, String.data_append]
  rw [h]
  exact subSeqAt_append _ _ _

theorem convertNode_pre_of_code (attrs : List (String × List String))
    (cs : List Node) (code : Node) (h : findTagL "code" cs = some code) :
    convertNode (Node.elem "pre" attrs cs) =
      Node.raw (buildCodeFragment (detectLanguage (getClasses code))
        (get_text code)) := by
  unfold convertNode
  rw [if_pos rfl, h]

theorem render_raw (s : String) : render (Node.raw s) = s := by
  simp [render]

mutual

theorem convertNode_id_of_no_pre :
    ∀ n, findTag "pre" n = none → convertNode n = n
  | Node.txt _, _ => rfl
  | Node.raw _, _ => rfl
  | Node.elem t a cs, h => by
    have ht : ¬ (t = "pre") := by
      intro he
      subst he
      simp [findTag] at h
    have hcs : findTagL "pre" cs = none := by
      unfold findTag at h
      rw [if_neg ht] at h
      exact h
    have ih := convertNodes_id_of_no_pre cs hcs
    unfold convertNode
    rw [if_neg ht, ih]

theorem convertNodes_id_of_no_pre :
    ∀ ns, findTagL "pre" ns = none → convertNodes ns = ns
  | [], _ => rfl
  | n :: ns, h => by
    have h1 : findTag "pre" n = none := by
      unfold findTagL at h
      cases hf : findTag "pre" n with
      | some r => rw [hf] at h; exact absurd h (by simp)
      | none => rfl
    have h2 : findTagL "pre" ns = none := by
      unfold findTagL at h
      rw [h1] at h
      exact h
    have ih1 := convertNode_id_of_no_pre n h1
    have ih2 := convertNodes_id_of_no_pre ns h2
    unfold convertNodes
    rw [ih1, ih2]

end

mutual

theorem convertNode_id_of_no_code :
    ∀ n, findTag "code" n = none → convertNode n = n
  | Node.txt _, _ => rfl
  | Node.raw _, _ => rfl
  | Node.elem t a cs, h => by
    have hcs : findTagL "code" cs = none := by
      unfold findTag at h
      by_cases he : t = "code"
      · rw [if_pos he] at h; exact absurd h (by simp)
      · rw [if_neg he] at h; exact h
    have ih := convertNodes_id_of_no_code cs hcs
    unfold convertNode
    by_cases hp : t = "pre"
    · rw [if_pos hp, hcs, ih]
    · rw [if_neg hp, ih]

theorem convertNodes_id_of_no_code :
    ∀ ns, findTagL "code" ns = none → convertNodes ns = ns
  | [], _ => rfl
  | n :: ns, h => by
    have h1 : findTag "code" n = none := by
      unfold findTagL at h
      cases hf : findTag "code" n with
      | some r => rw [hf] at h; exact absurd h (by simp)
      | none => rfl
    have h2 : findTagL "code" ns = none := by
      unfold findTagL at h
      rw [h1] at h
      exact h
    have ih1 := convertNode_id_of_no_code n h1
    have ih2 := convertNodes_id_of_no_code ns h2
    unfold convertNodes
    rw [ih1, ih2]

end

theorem convertNodes_append (xs ys : List Node) :
    convertNodes (xs ++ ys) = convertNodes xs ++ convertNodes ys := by
  induction xs with
  | nil => rfl
  | cons x xs ih =>
    simp only [List.cons_append, convertNodes, List.append_eq, ih]

theorem renderL_append (xs ys : List Node) :
    renderL (xs ++ ys) = renderL xs ++ renderL ys := by
  induction xs with
  | nil => simp [renderL]
  | cons x xs ih =>
    simp only [List.cons_append, renderL, List.append_eq, ih, String.append_assoc]

theorem primaryAttempt_snd {T : Type} (c : Collab T) (a : Bool) (html : String)
    (fs : FS) :
    (primaryAttempt c a html fs).2 = rmtree fs.next ⟨fs.next :: fs.dirs, fs.next + 1⟩ :=
  rfl

theorem storage_snd {T : Type} (c : Collab T) (md : String) (a : Bool) (fs : FS) :
    (markdown_to_confluence_storage c md a fs).2 =
      (primaryAttempt c a (c.markdown_to_html md) fs).2 := by
  unfold markdown_to_confluence_storage
  cases h1 : (primaryAttempt c a (c.markdown_to_html md) fs).1 with
  | ok s => simp [h1]
  | error e =>
    cases h2 : fallbackStep c (c.markdown_to_html md) with
    | ok s => simp [h1, h2]
    | error e2 => simp [h1, h2]

theorem primaryAttempt_fst_path_blind {T : Type} (c : Collab T) (a : Bool)
    (html : String)
    (hv : ∀ o d d' t, c.visit_serialize o d t = c.visit_serialize o d' t)
    (fs fs' : FS) :
    (primaryAttempt c a html fs).1 = (primaryAttempt c a html fs').1 := by
  unfold primaryAttempt
  cases c.elements_from_string html with
  | error e => rfl
  | ok root => exact hv _ _ _ root

/-! ## Claim theorems -/

/-- C1: for every markdown input and every `enable_heading_anchors`
value, and for every behaviour of the fallible collaborators — primary
conversion failing, fallback substitution failing, or both —
`markdown_to_confluence_storage` returns a string and never propagates
an exception to the caller. -/
theorem always_returns_ok {T : Type} (c : Collab T) (md : String) (a : Bool)
    (fs : FS) :
    ∃ s, (markdown_to_confluence_storage c md a fs).1 = Except.ok s := by
  unfold markdown_to_confluence_storage
  cases h1 : (primaryAttempt c a (c.markdown_to_html md) fs).1 with
  | ok s => exact ⟨s, by simp [h1]⟩
  | error e =>
    cases h2 : fallbackStep c (c.markdown_to_html md) with
    | ok s => exact ⟨s, by simp [h1, h2]⟩
    | error e2 => exact ⟨c.markdown_to_html md, by simp [h1, h2]⟩

/-- C2: whenever the primary conversion path raises and the fallback
substitution step also raises, `markdown_to_confluence_storage` returns
exactly the string the Markdown-to-HTML render step produces for the
input, with no further mutation.  (The render of line 99 re-applies the
same renderer to the same input as line 55, so this is the HTML of the
first render step, verbatim.) -/
theorem double_failure_returns_first_render {T : Type} (c : Collab T)
    (md : String) (a : Bool) (fs : FS) (e e' : String)
    (h1 : (primaryAttempt c a (c.markdown_to_html md) fs).1 = Except.error e)
    (h2 : fallbackStep c (c.markdown_to_html md) = Except.error e') :
    (markdown_to_confluence_storage c md a fs).1 =
      Except.ok (c.markdown_to_html md) := by
  unfold markdown_to_confluence_storage
  simp [h1, h2]

/-- Witness for C2: with a collaborator set whose primary parse raises
and whose bs4 import fails, the call returns the rendered HTML. -/
theorem double_failure_returns_first_render_witness :
    (primaryAttempt failingCollab false (failingCollab.markdown_to_html "# t") fs0).1
        = Except.error "forced parse error"
    ∧ fallbackStep failingCollab (failingCollab.markdown_to_html "# t")
        = Except.error "ImportError: bs4"
    ∧ (markdown_to_confluence_storage failingCollab "# t" false fs0).1
        = Except.ok "<p># t</p>" :=
  ⟨rfl, rfl,
    double_failure_returns_first_render failingCollab "# t" false fs0 _ _ rfl rfl⟩

/-- C4: on every call in which the scratch temporary directory is
created, it is removed on every exit path of the primary attempt — the
final filesystem state holds exactly the directories that existed
before the call, for every collaborator behaviour (success, primary
failure before fallback, or any other failure). -/
theorem temp_dir_removed_on_all_paths {T : Type} (c : Collab T) (md : String)
    (a : Bool) (fs : FS) (h : fs.next ∉ fs.dirs) :
    ((markdown_to_confluence_storage c md a fs).2).dirs = fs.dirs := by
  rw [storage_snd, primaryAttempt_snd]
  show ((fs.next :: fs.dirs).filter fun x => decide (x ≠ fs.next)) = fs.dirs
  rw [List.filter_cons]
  simp
  intro a ha he
  exact h (he ▸ ha)

/-- Witness for C4: a concrete failing run leaves the directory list
exactly as it was. -/
theorem temp_dir_removed_on_all_paths_witness :
    fs0.next ∉ fs0.dirs
    ∧ ((markdown_to_confluence_storage failingCollab "x" false fs0).2).dirs = fs0.dirs :=
  ⟨by simp [fs0], temp_dir_removed_on_all_paths failingCollab "x" false fs0 (by simp [fs0])⟩

/-- C7: `markdown_to_confluence_storage` is deterministic and stateless
across calls: when the external structural converter does not depend on
the scratch path it is handed (per the spec, the directory is unused
context), the result is the same from any filesystem state — in
particular two invocations with identical arguments return identical
strings, and the state left behind by one invocation does not change
the result of the next. -/
theorem conversion_deterministic_stateless {T : Type} (c : Collab T)
    (hv : ∀ o d d' t, c.visit_serialize o d t = c.visit_serialize o d' t) :
    (∀ md a fs fs',
        (markdown_to_confluence_storage c md a fs).1 =
          (markdown_to_confluence_storage c md a fs').1)
    ∧ ∀ md a md' a' fs,
        (markdown_to_confluence_storage c md a
            ((markdown_to_confluence_storage c md' a' fs).2)).1 =
          (markdown_to_confluence_storage c md a fs).1 := by
  have key : ∀ md a fs fs',
      (markdown_to_confluence_storage c md a fs).1 =
        (markdown_to_confluence_storage c md a fs').1 := by
    intro md a fs fs'
    have hpa := primaryAttempt_fst_path_blind c a (c.markdown_to_html md) hv fs fs'
    unfold markdown_to_confluence_storage
    simp only [hpa]
    cases h : (primaryAttempt c a (c.markdown_to_html md) fs').1 with
    | ok s => simp [h]
    | error e =>
      cases h2 : fallbackStep c (c.markdown_to_html md) with
      | ok s => simp [h, h2]
      | error e2 => simp [h, h2]
  exact ⟨key, fun md a md' a' fs => key md a _ fs⟩

/-- Witness for C7: a concrete path-blind collaborator set gives the
same result from two different filesystem states. -/
theorem conversion_deterministic_stateless_witness :
    (markdown_to_confluence_storage pathBlindCollab "x" false ⟨[], 0⟩).1 =
      (markdown_to_confluence_storage pathBlindCollab "x" false ⟨[3], 7⟩).1 :=
  (conversion_deterministic_stateless pathBlindCollab (fun _ _ _ _ => rfl)).1
    "x" false ⟨[], 0⟩ ⟨[3], 7⟩

/-- C8: the choice between the two tree-parsing functions is made by a
single probe (modelled at collaborator-construction time, before any
call), and when the two names denote the same, equivalent function,
both outcomes of the probe select the same function and every
subsequent conversion behaves identically. -/
theorem elements_from_string_probe_equivalent {T : Type} (lib : Md2confLib T)
    (heq : lib.elements_from_string_impl = lib.elements_from_strings) :
    (∀ b, selectElementsFromString ({ lib with elements_from_string_available := b }) = lib.elements_from_strings)
    ∧ ∀ (c : Collab T) (b : Bool) (md : String) (a : Bool) (fs : FS),
        markdown_to_confluence_storage
          { c with elements_from_string :=
              selectElementsFromString ({ lib with elements_from_string_available := b }) }
          md a fs
        = markdown_to_confluence_storage
            { c with elements_from_string := lib.elements_from_strings } md a fs := by
  have hsel : ∀ b, selectElementsFromString ({ lib with elements_from_string_available := b }) = lib.elements_from_strings := by
    intro b
    cases b with
    | false => rfl
    | true => simp [selectElementsFromString, heq]
  refine ⟨hsel, ?_⟩
  intro c b md a fs
  rw [hsel b]

/-- Witness for C8: on a concrete library whose two parser names agree,
both probe outcomes select that parser and a concrete conversion is
unchanged by which probe outcome occurred. -/
theorem elements_from_string_probe_equivalent_witness :
    selectElementsFromString ({ probeLib with elements_from_string_available := true })
      = probeLib.elements_from_strings
    ∧ markdown_to_confluence_storage
        { pathBlindCollab with elements_from_string :=
            selectElementsFromString ({ probeLib with elements_from_string_available := false }) }
        "x" false fs0
      = markdown_to_confluence_storage
          { pathBlindCollab with elements_from_string := probeLib.elements_from_strings }
          "x" false fs0 :=
  ⟨(elements_from_string_probe_equivalent probeLib rfl).1 true,
    (elements_from_string_probe_equivalent probeLib rfl).2
      pathBlindCollab false "x" false fs0⟩

/-- Counterexample to C3 as stated: the `code` element of
`preTwoClasses` carries a class matching the pattern `language-<name>`
with `<name> = python`, yet the replacement fragment contains no
`ac:parameter` at all — the first matching class `language-` wins, its
remainder is empty, and Python's truthiness test drops the parameter. -/
theorem language_param_exactly_when_counterexample :
    ("language-" ++ "python") ∈ getClasses codeTwoClasses
    ∧ convertNode preTwoClasses = Node.raw (fragmentHead ++ fragmentTail "x")
    ∧ containsSub "<ac:parameter" (render (convertNode preTwoClasses)) = false :=
  ⟨by decide, rfl, rfl⟩

/-- C3 (amended): in the fallback path every `pre` element with a
`code` descendant is replaced in place by the code structured fragment
built from the detected language and the `code` element's text; the
fragment contains the `ac:parameter` named `language` with value `name`
exactly when the FIRST class of the `code` element starting with
`language-` yields the non-empty remainder `name`; when the detected
language is empty or absent the fragment carries no parameter. -/
theorem pre_code_replacement_language_param :
    (∀ (attrs : List (String × List String)) (cs : List Node) (code : Node),
        findTagL "code" cs = some code →
        convertNode (Node.elem "pre" attrs cs) =
          Node.raw (buildCodeFragment (detectLanguage (getClasses code))
            (get_text code)))
    ∧ (∀ (name t : String), name ≠ "" →
        buildCodeFragment (some name) t =
          fragmentHead ++ languageParameter name ++ fragmentTail t)
    ∧ (∀ t : String, buildCodeFragment (some "") t = fragmentHead ++ fragmentTail t)
    ∧ (∀ t : String, buildCodeFragment none t = fragmentHead ++ fragmentTail t) := by
  refine ⟨convertNode_pre_of_code, ?_, ?_, ?_⟩
  · intro name t h
    simp only [buildCodeFragment, optionalLanguageParameter]
    rw [if_pos h]
  · intro t
    simp only [buildCodeFragment, optionalLanguageParameter]
    rw [if_neg (by simp)]
    simp [String.append_empty]
  · intro t
    simp only [buildCodeFragment, optionalLanguageParameter]
    simp [String.append_empty]

/-- Witness for the amended C3: the `python` fenced block's `pre` is
replaced by the fragment, and a non-empty language yields exactly one
parameter element. -/
theorem pre_code_replacement_language_param_witness :
    findTagL "code" [codePy] = some codePy
    ∧ convertNode (Node.elem "pre" [] [codePy]) =
        Node.raw (buildCodeFragment (detectLanguage (getClasses codePy))
          (get_text codePy))
    ∧ buildCodeFragment (some "python") "x" =
        fragmentHead ++ languageParameter "python" ++ fragmentTail "x" :=
  ⟨rfl, pre_code_replacement_language_param.1 [] [codePy] codePy rfl,
    pre_code_replacement_language_param.2.1 "python" "x" (by decide)⟩

/-- C5: in the fallback path the text extracted from the `code` element
is embedded in the fragment's literal plain-text body exactly as
extracted: the markup replacing the `pre` is a constant head ending in
`<![CDATA[`, then the raw code text with no escaping applied to any
character, then a constant tail starting with `]]>` — so the text
occurs verbatim in the returned string. -/
theorem code_text_embedded_verbatim (attrs : List (String × List String))
    (cs : List Node) (code : Node) (h : findTagL "code" cs = some code) :
    render (convertNode (Node.elem "pre" attrs cs)) =
      (fragmentHead
          ++ optionalLanguageParameter (detectLanguage (getClasses code))
          ++ "<ac:plain-text-body><![CDATA[")
        ++ get_text code
        ++ ("]]></ac:plain-text-body>" ++ "</ac:structured-macro>")
    ∧ containsSub (get_text code)
        (render (convertNode (Node.elem "pre" attrs cs))) = true := by
  have hc := convertNode_pre_of_code attrs cs code h
  have hr : render (convertNode (Node.elem "pre" attrs cs)) =
      buildCodeFragment (detectLanguage (getClasses code)) (get_text code) := by
    rw [hc, render_raw]
  have hshape : buildCodeFragment (detectLanguage (getClasses code)) (get_text code) =
      (fragmentHead
          ++ optionalLanguageParameter (detectLanguage (getClasses code))
          ++ "<ac:plain-text-body><![CDATA[")
        ++ get_text code
        ++ ("]]></ac:plain-text-body>" ++ "</ac:structured-macro>") := by
    simp only [buildCodeFragment, fragmentTail]
    simp [String.append_assoc]
  refine ⟨hr.trans hshape, ?_⟩
  rw [hr, hshape]
  exact containsSub_append _ _ _

set_option maxRecDepth 8192 in
/-- Witness for C5: the `python` fenced block's text, including
`def hello():` and `return "world"`, appears verbatim in the output. -/
theorem code_text_embedded_verbatim_witness :
    findTagL "code" [codePy] = some codePy
    ∧ render (convertNode (Node.elem "pre" [] [codePy])) =
        (fragmentHead
            ++ optionalLanguageParameter (detectLanguage (getClasses codePy))
            ++ "<ac:plain-text-body><![CDATA[")
          ++ get_text codePy
          ++ ("]]></ac:plain-text-body>" ++ "</ac:structured-macro>")
    ∧ containsSub "def hello():"
        (render (convertNode (Node.elem "pre" [] [codePy]))) = true
    ∧ containsSub "return \"world\""
        (render (convertNode (Node.elem "pre" [] [codePy]))) = true :=
  ⟨rfl, (code_text_embedded_verbatim [] [codePy] codePy rfl).1, rfl, rfl⟩

/-- C6: in the fallback path every node with no `pre` descendant — in
particular bold, italic, blockquote, list and anchor elements as the
HTML renderer produced them — is left untouched by the rewrite, and in
the returned string it appears verbatim between its converted
siblings. -/
theorem non_pre_content_unchanged (n : Node) (ns ms : List Node)
    (h : findTag "pre" n = none) :
    convertNode n = n
    ∧ renderL (convertNodes (ns ++ n :: ms)) =
        renderL (convertNodes ns) ++ render n ++ renderL (convertNodes ms) := by
  have hid := convertNode_id_of_no_pre n h
  refine ⟨hid, ?_⟩
  rw [convertNodes_append, renderL_append]
  show renderL (convertNodes ns)
      ++ (render (convertNode n) ++ renderL (convertNodes ms)) = _
  rw [hid]
  simp [String.append_assoc]

/-- Witness for C6: an anchor element with its href and visible text is
unchanged, also when it sits between a bold element and a replaced
`pre` block. -/
theorem non_pre_content_unchanged_witness :
    findTag "pre" anchorNode = none
    ∧ convertNode anchorNode = anchorNode
    ∧ renderL (convertNodes
          ([Node.elem "strong" [] [Node.txt "bold"]] ++ anchorNode :: [prePy])) =
        renderL (convertNodes [Node.elem "strong" [] [Node.txt "bold"]])
          ++ render anchorNode ++ renderL (convertNodes [prePy]) :=
  ⟨rfl,
    (non_pre_content_unchanged anchorNode
      [Node.elem "strong" [] [Node.txt "bold"]] [prePy] rfl).1,
    (non_pre_content_unchanged anchorNode
      [Node.elem "strong" [] [Node.txt "bold"]] [prePy] rfl).2⟩

/-- C9: language detection uses the first class starting with
`language-`, whatever follows in the class list; a class of exactly
`language-` yields the empty remainder, which is treated as absent —
the fragment built from it is identical to the fragment built with no
language at all, so no language parameter is generated. -/
theorem first_language_class_empty_treated_absent (name t : String)
    (rest : List String) :
    detectLanguage (("language-" ++ name) :: rest) = some name
    ∧ detectLanguage ("language-" :: rest) = some ""
    ∧ buildCodeFragment (some "") t = buildCodeFragment none t := by
  refine ⟨?_, ?_, ?_⟩
  · simp only [detectLanguage]
    rw [if_pos (startsWithStr_append "language-" name), afterFirstDash_language]
  · simp only [detectLanguage]
    rw [if_pos (by decide)]
    rfl
  · simp only [buildCodeFragment, optionalLanguageParameter]
    simp

/-- C10: in the fallback path a `pre` element with no `code` descendant
is skipped: it is unchanged in the rewritten tree and hence appears
unchanged in the returned string. -/
theorem pre_without_code_skipped (attrs : List (String × List String))
    (cs : List Node) (h : findTagL "code" cs = none) :
    convertNode (Node.elem "pre" attrs cs) = Node.elem "pre" attrs cs
    ∧ render (convertNode (Node.elem "pre" attrs cs)) =
        render (Node.elem "pre" attrs cs) := by
  have hmain : convertNode (Node.elem "pre" attrs cs) = Node.elem "pre" attrs cs := by
    unfold convertNode
    rw [if_pos rfl, h]
    show Node.elem "pre" attrs (convertNodes cs) = Node.elem "pre" attrs cs
    rw [convertNodes_id_of_no_code cs h]
  exact ⟨hmain, by rw [hmain]⟩

/-- Witness for C10: a `pre` holding only text is left unchanged. -/
theorem pre_without_code_skipped_witness :
    findTagL "code" [Node.txt "plain text"] = none
    ∧ convertNode prePlain = prePlain :=
  ⟨rfl, (pre_without_code_skipped [] [Node.txt "plain text"] rfl).1⟩

end ConfluencePreprocessing
